import Mathlib

/-!
Shallow embedding of the shuttle-roid test server (two FastAPI apps:
`morning.py` and `main.py`) and verification of its specification.

JSON documents are modelled by `JValue`; Python dictionaries are JSON
objects, i.e. association lists with string keys (keys are unique in
parsed JSON, and `dict.get` returns the first binding).  HTTP error
outcomes are modelled by `HErr`: an `HTTPException` raised by the
handler carries its status code, while any other uncaught Python
exception (pydantic `ValidationError`, `AttributeError`, `TypeError`,
`KeyError`, `ValueError`) is turned into a plain 500 response by the
framework's server-error middleware.
-/

set_option autoImplicit false
set_option linter.unusedVariables false
set_option linter.unnecessarySeqFocus false

namespace Shuttle

/-- JSON values (numbers restricted to integers; no claim involves
non-integral numbers). -/
inductive JValue where
  | nul : JValue
  | bool : Bool → JValue
  | num : Int → JValue
  | str : String → JValue
  | arr : List JValue → JValue
  | obj : List (String × JValue) → JValue

/-- How a handler run can fail, seen from the HTTP client.
`http` is a deliberately raised `HTTPException`; the remaining
constructors are uncaught Python exceptions. -/
inductive HErr where
  | http : Nat → String → HErr
  | pydanticErr : String → HErr
  | attrErr : String → HErr
  | typeErr : String → HErr
  | keyErr : String → HErr
  | valueErr : String → HErr
deriving DecidableEq

/-- Status code of the HTTP response produced for an error: an
`HTTPException` keeps its code, every uncaught exception becomes a 500
(Starlette's `ServerErrorMiddleware`). -/
def statusOf : HErr → Nat
  | .http s _ => s
  | _ => 500

/-- A client-error response (4xx class). -/
def isClientError (e : HErr) : Bool :=
  400 ≤ statusOf e && statusOf e < 500

/-- Whether an error is the 404 "not found" outcome. -/
def is404 : HErr → Bool
  | .http 404 _ => true
  | _ => false

/-- State of one file on disk: absent, present but not valid JSON, or
present with parsed content `j`. -/
inductive FileState where
  | missing : FileState
  | malformed : FileState
  | content : JValue → FileState

/-- The argument actually passed to `_read_json`: a `Path` (identified
by its file name) or — by mistake — a plain Python string. -/
inductive PyArg where
  | pathArg : String → PyArg
  | strArg : String → PyArg

/-- `morning.py` lines 51–58, `_read_json`.  On a `Path` argument it
raises a 500 `HTTPException` when the file is missing or not valid
JSON, and returns the parsed document otherwise.  On a string argument
the very first expression `path.exists()` raises `AttributeError`
(`str` has no attribute `exists`). -/
def _read_json (fs : String → FileState) (arg : PyArg) : Except HErr JValue :=
  match arg with
  | .strArg _ => .error (.attrErr "str object has no attribute exists")
  | .pathArg name =>
    match fs name with
    | .missing => .error (.http 500 ("Server data file not found: " ++ name))
    | .malformed => .error (.http 500 ("Invalid JSON in " ++ name))
    | .content j => .ok j

/-- First binding of key `k` in a JSON object's field list
(Python `dict` lookup; parsed JSON has unique keys). -/
def jlookup (fields : List (String × JValue)) (k : String) : Option JValue :=
  fields.lookup k

/-- Python `d.get(k, dflt)`: requires `d` to be a dict
(`AttributeError` otherwise). -/
def pyDictGet (j : JValue) (k : String) (dflt : JValue) : Except HErr JValue :=
  match j with
  | .obj fields => .ok ((jlookup fields k).getD dflt)
  | _ => .error (.attrErr "object has no attribute get")

/-- Python `int(x)` on a JSON value: ints pass through, bools become
0/1, integer-formatted strings are parsed (`ValueError` otherwise),
everything else raises `TypeError`. -/
def pyInt (v : JValue) : Except HErr Int :=
  match v with
  | .num n => .ok n
  | .bool b => .ok (if b then 1 else 0)
  | .str s =>
    match s.toInt? with
    | some n => .ok n
    | none => .error (.valueErr "invalid literal for int()")
  | _ => .error (.typeErr "int() argument")

/-- `morning.py` lines 61–65, `GET /update/check`: read `db.json`,
take `updateFlag` (default 0) as an int, return `server_flag > flag`.
`orgID` is received but never used. -/
def check_update (fs : String → FileState) (flag : Int) (orgID : Int) :
    Except HErr Bool :=
  match _read_json fs (.pathArg "db.json") with
  | .error e => .error e
  | .ok db =>
    match pyDictGet db "updateFlag" (.num 0) with
    | .error e => .error e
    | .ok v =>
      match pyInt v with
      | .error e => .error e
      | .ok server_flag => .ok (decide (server_flag > flag))

/-- `morning.py` lines 68–72, `GET /update`: the handler calls
`_read_json("data.json")` with a plain string (the `Path` constant
`DB_DATA` on line 12 is never used), so `_read_json` raises
`AttributeError` before touching the filesystem. -/
def get_db_json (fs : String → FileState) (orgID : Int) : Except HErr JValue :=
  _read_json fs (.strArg "data.json")

/-- The pydantic `Trip` model of `morning.py` lines 36–38. -/
structure Trip where
  depTime : String
  routeId : Int
deriving DecidableEq, Repr

/-- The response model of `morning.py` lines 45–48 (`date` is
`Optional[str]`). -/
structure ScheduleResponse where
  carNo : String
  date : Option String
  trips : List Trip
deriving DecidableEq, Repr

/-- Python `s.get(k)` for a schedule entry when `s` is a dict; `none`
for a non-dict is never used on its own (the comprehension guard
`isObj` is checked first, mirroring the `AttributeError`). -/
def entryGet (s : JValue) (k : String) : Option JValue :=
  match s with
  | .obj fields => jlookup fields k
  | _ => none

/-- Whether a JSON value is an object (a Python dict). -/
def isObj : JValue → Bool
  | .obj _ => true
  | _ => false

/-- Python `v == some_string`: true exactly on an equal string. -/
def isStr (v : JValue) (s : String) : Bool :=
  match v with
  | .str t => t == s
  | _ => false

/-- The predicate of the first list comprehension (line 83):
`s.get("carNo") == car_no and s.get("date", today_str) == today_str`. -/
def todayPred (car today : String) (s : JValue) : Bool :=
  (match entryGet s "carNo" with
   | some v => isStr v car
   | none => false)
  && (match entryGet s "date" with
      | some v => isStr v today
      | none => true)

/-- The predicate of the fallback comprehension (line 86):
`s.get("carNo") == car_no`. -/
def carPred (car : String) (s : JValue) : Bool :=
  match entryGet s "carNo" with
  | some v => isStr v car
  | none => false

/-- Lines 83–86: candidates are the entries matching carNo and
today's date; when that list is empty, the entries matching carNo
alone. -/
def selectCandidates (schedules : List JValue) (car today : String) :
    List JValue :=
  let c := schedules.filter (todayPred car today)
  if c.isEmpty then schedules.filter (carPred car) else c

/-- `Trip(**t)` (line 96) under pydantic v2 lax validation: `t` must
be a mapping (`TypeError` otherwise); `depTime` must be present and a
string (no numeric coercion to `str`); `routeId` must be present and
an int or an integer-formatted string.  A failed check raises a
pydantic `ValidationError`, which the handler does not catch. -/
def validateTrip (t : JValue) : Except HErr Trip :=
  match t with
  | .obj fields =>
    match jlookup fields "depTime", jlookup fields "routeId" with
    | some (.str d), some (.num n) => .ok ⟨d, n⟩
    | some (.str d), some (.str s) =>
      match s.toInt? with
      | some n => .ok ⟨d, n⟩
      | none => .error (.pydanticErr "routeId: unable to parse string as an integer")
    | some (.str _), some _ => .error (.pydanticErr "routeId: input should be a valid integer")
    | some (.str _), none => .error (.pydanticErr "routeId: field required")
    | _, _ => .error (.pydanticErr "depTime: input should be a valid string")
  | _ => .error (.typeErr "argument after ** must be a mapping")

/-- The list comprehension `[Trip(**t) for t in s["trips"]]` (line
96): converts elements in order, raising at the first invalid one. -/
def validateTrips : List JValue → Except HErr (List Trip)
  | [] => .ok []
  | t :: ts =>
    match validateTrip t with
    | .error e => .error e
    | .ok tr =>
      match validateTrips ts with
      | .error e => .error e
      | .ok rest => .ok (tr :: rest)

/-- `ScheduleResponse(carNo=..., date=..., trips=...)` (line 97):
pydantic validates `carNo : str` and `date : Optional[str]`. -/
def mkScheduleResponse (carVal : JValue) (dateVal : Option JValue)
    (trips : List Trip) : Except HErr ScheduleResponse :=
  match carVal with
  | .str c =>
    match dateVal with
    | none => .ok ⟨c, none, trips⟩
    | some .nul => .ok ⟨c, none, trips⟩
    | some (.str d) => .ok ⟨c, some d, trips⟩
    | some _ => .error (.pydanticErr "date: input should be a valid string")
  | _ => .error (.pydanticErr "carNo: input should be a valid string")

/-- Lines 91–97 applied to the selected entry `s`: require a `trips`
list (500 otherwise), convert its elements, and build the response
(`s["carNo"]` raises `KeyError` only if the key is absent, which the
selection predicate rules out). -/
def finishEntry (s : JValue) : Except HErr ScheduleResponse :=
  match entryGet s "trips" with
  | some (.arr ts) =>
    match validateTrips ts with
    | .error e => .error e
    | .ok trips =>
      match entryGet s "carNo" with
      | some cv => mkScheduleResponse cv (entryGet s "date") trips
      | none => .error (.keyErr "carNo")
  | _ => .error (.http 500 "schedule item must contain trips array")

/-- `morning.py` lines 75–97, `GET /api/schedule/{car_no}`.  Reads
`schedules.json`, takes its `schedules` field (default `[]`, 500 if
not a list), filters by carNo+today with a carNo-only fallback, 404s
when both filters are empty, and validates only the first candidate.
The comprehensions call `s.get` on every element, so any non-dict
element raises `AttributeError`; this is modelled by the up-front
`all isObj` guard, which produces the same outcome. -/
def get_schedule (fs : String → FileState) (car_no today : String) :
    Except HErr ScheduleResponse :=
  match _read_json fs (.pathArg "schedules.json") with
  | .error e => .error e
  | .ok j =>
    match pyDictGet j "schedules" (.arr []) with
    | .error e => .error e
    | .ok sv =>
      match sv with
      | .arr schedules =>
        if schedules.all isObj then
          match selectCandidates schedules car_no today with
          | [] => .error (.http 404 ("No schedule for carNo=" ++ car_no))
          | s :: _ => finishEntry s
        else .error (.attrErr "object has no attribute get")
      | _ => .error (.http 500 "schedules.json must contain schedules array")

/-- A filesystem whose `schedules.json` holds
`{"schedules": <the given list>}`. -/
def schedFS (l : List JValue) : String → FileState := fun name =>
  if name = "schedules.json" then .content (.obj [("schedules", .arr l)])
  else .missing

/-! ### `main.py`: the single-slot ingestion store -/

/-- The pydantic `BusReport` model of `main.py` lines 16–23: three
required string fields; `vehicle_no` and `stop_location` also accept
their camel-case aliases (`populate_by_name = True`); extra fields are
ignored. -/
structure BusReport where
  vehicle_no : String
  route : String
  stop_location : String
deriving DecidableEq, Repr

/-- `main.py` lines 26–29: the in-memory record. -/
structure StoredData where
  received_at : String
  source_ip : String
  payload : BusReport
deriving DecidableEq, Repr

/-- How FastAPI rejects a request body that fails pydantic validation:
a 422 response carrying the list of field errors. -/
inductive ReqErr where
  | requestValidation : List String → ReqErr
deriving DecidableEq, Repr

/-- Pydantic v2 field lookup with an alias: the alias is consulted
first, then (because of `populate_by_name`) the field name. -/
def getAliased (fields : List (String × JValue)) (al fieldName : String) :
    Option JValue :=
  match jlookup fields al with
  | some v => some v
  | none => jlookup fields fieldName

/-- Pydantic v2 validation of a required `str` field: the value must
be present and be a string (v2 performs no numeric-to-string
coercion). -/
def parseStrField (v : Option JValue) (fieldName : String) :
    Except (List String) String :=
  match v with
  | some (.str s) => .ok s
  | some _ => .error [fieldName ++ ": input should be a valid string"]
  | none => .error [fieldName ++ ": field required"]

/-- Error list of one field's validation outcome. -/
def errsOf (r : Except (List String) String) : List String :=
  match r with
  | .ok _ => []
  | .error es => es

/-- FastAPI's parsing of the request body into a `BusReport`: the body
must be a JSON object, each of the three fields is validated (aliases
applied), and all field errors are collected into one 422 response. -/
def parseBusReport (body : JValue) : Except ReqErr BusReport :=
  match body with
  | .obj fields =>
    match parseStrField (getAliased fields "vehicleNo" "vehicle_no") "vehicle_no",
          parseStrField (jlookup fields "route") "route",
          parseStrField (getAliased fields "stopLocation" "stop_location") "stop_location" with
    | .ok v, .ok r, .ok l => .ok ⟨v, r, l⟩
    | a, b, c => .error (.requestValidation (errsOf a ++ errsOf b ++ errsOf c))
  | _ => .error (.requestValidation ["body: input should be a valid dictionary"])

/-- `main.py` lines 113–124, `POST /ingest`, as a transition on the
slot `_latest : Option StoredData`.  A body FastAPI cannot validate is
rejected with 422 before the handler runs, leaving the slot untouched;
a valid body replaces the slot with a fresh record (timestamp and
client address are inputs here) and returns that record. -/
def ingest (body : JValue) (now client_ip : String)
    (st : Option StoredData) : Option StoredData × Except ReqErr StoredData :=
  match parseBusReport body with
  | .error e => (st, .error e)
  | .ok payload =>
    let record : StoredData := ⟨now, client_ip, payload⟩
    (some record, .ok record)

/-- `main.py` lines 129–132, `GET /data`: returns the slot as is
(`None` before any ingestion, rendered as JSON `null`). -/
def get_data (st : Option StoredData) : Option StoredData := st

/-! ### Helper lemmas -/

/-- The head of a filtered list is the first element satisfying the
predicate. -/
theorem head?_filterP {α : Type} (p : α → Bool) (l : List α) :
    (l.filter p).head? = l.find? p := by
  induction l with
  | nil => rfl
  | cons a l ih =>
    by_cases h : p a <;> simp [List.filter_cons, List.find?_cons, h, ih]

/-- An entry matching carNo and date also matches carNo alone. -/
theorem todayPred_imp_carPred (car today : String) (s : JValue)
    (h : todayPred car today s = true) : carPred car s = true := by
  unfold todayPred at h
  unfold carPred
  exact (Bool.and_eq_true_iff.mp h).1

/-- Unfolding `get_schedule` on a filesystem whose `schedules.json`
parses to an object with a `schedules` list. -/
theorem get_schedule_content (fs : String → FileState) (car today : String)
    (fields : List (String × JValue)) (l : List JValue)
    (hfs : fs "schedules.json" = .content (.obj fields))
    (hsch : jlookup fields "schedules" = some (.arr l)) :
    get_schedule fs car today =
      if l.all isObj then
        match selectCandidates l car today with
        | [] => .error (.http 404 ("No schedule for carNo=" ++ car))
        | s :: _ => finishEntry s
      else .error (.attrErr "object has no attribute get") := by
  unfold get_schedule _read_json
  dsimp only
  rw [hfs]
  simp [pyDictGet, hsch]

/-- When the first filter has a hit, the selected candidate is the
first entry satisfying `todayPred`. -/
theorem selectCandidates_of_find_today (l : List JValue) (car today : String)
    (e : JValue) (h : l.find? (todayPred car today) = some e) :
    ∃ r, selectCandidates l car today = e :: r := by
  unfold selectCandidates
  have hh : (l.filter (todayPred car today)).head? = some e := by
    rw [head?_filterP]; exact h
  match hc : l.filter (todayPred car today) with
  | [] => rw [hc] at hh; simp at hh
  | x :: r =>
    rw [hc] at hh
    simp at hh
    exact ⟨r, by simp [hc, hh]⟩

/-- When the first filter is empty but the fallback has a hit, the
selected candidate is the first entry satisfying `carPred`. -/
theorem selectCandidates_of_find_car (l : List JValue) (car today : String)
    (e : JValue) (h0 : l.find? (todayPred car today) = none)
    (h : l.find? (carPred car) = some e) :
    ∃ r, selectCandidates l car today = e :: r := by
  unfold selectCandidates
  have hfil : l.filter (todayPred car today) = [] := by
    rw [List.filter_eq_nil_iff]
    intro a ha
    have := List.find?_eq_none.mp h0 a ha
    simpa using this
  have hh : (l.filter (carPred car)).head? = some e := by
    rw [head?_filterP]; exact h
  match hc : l.filter (carPred car) with
  | [] => rw [hc] at hh; simp at hh
  | x :: r =>
    rw [hc] at hh
    simp at hh
    exact ⟨r, by simp [hfil, hc, hh]⟩

/-- When no entry matches the carNo at all, both filters are empty. -/
theorem selectCandidates_of_no_car (l : List JValue) (car today : String)
    (h : ∀ e ∈ l, carPred car e = false) :
    selectCandidates l car today = [] := by
  unfold selectCandidates
  have hfil1 : l.filter (todayPred car today) = [] := by
    rw [List.filter_eq_nil_iff]
    intro a ha hp
    have := todayPred_imp_carPred car today a hp
    rw [h a ha] at this
    exact Bool.noConfusion this
  have hfil2 : l.filter (carPred car) = [] := by
    rw [List.filter_eq_nil_iff]
    intro a ha hp
    rw [h a ha] at hp
    exact Bool.noConfusion hp
  simp [hfil1, hfil2]

/-- Every candidate produced by the selection matches the carNo. -/
theorem selectCandidates_mem_carPred (l : List JValue) (car today : String)
    (e : JValue) (h : e ∈ selectCandidates l car today) :
    carPred car e = true := by
  unfold selectCandidates at h
  by_cases hc : (l.filter (todayPred car today)).isEmpty
  · rw [if_pos hc] at h
    exact (List.mem_filter.mp h).2
  · rw [if_neg hc] at h
    exact todayPred_imp_carPred car today e (List.mem_filter.mp h).2

/-! ### Concrete fixtures -/

/-- A well-formed trip object. -/
def tripJ (dep : String) (rid : Int) : JValue :=
  .obj [("depTime", .str dep), ("routeId", .num rid)]

/-- Schedule entry for car "A" on a past date. -/
def entryPast : JValue :=
  .obj [("carNo", .str "A"), ("date", .str "2024-01-01"),
        ("trips", .arr [tripJ "07:00" 1])]

/-- Schedule entry for car "A" on the example "today". -/
def entryToday : JValue :=
  .obj [("carNo", .str "A"), ("date", .str "2025-06-02"),
        ("trips", .arr [tripJ "08:30" 2])]

/-- The example value of `date.today().isoformat()`. -/
def dayEx : String := "2025-06-02"

/-- Schedule entry for car "A" whose only trip lacks `routeId`. -/
def entryBadTrip : JValue :=
  .obj [("carNo", .str "A"), ("trips", .arr [.obj [("depTime", .str "07:30")]])]

/-- A schedule entry for another car that lacks a `trips` array. -/
def entryOtherCar : JValue := .obj [("carNo", .str "B")]

/-- A `db.json` whose `updateFlag` is 5. -/
def dbFS5 : String → FileState := fun n =>
  if n = "db.json" then .content (.obj [("updateFlag", .num 5)]) else .missing

/-! ### Claims -/

/-- Claim C2: with `db.json` holding an integer `updateFlag` (taken as
0 when the key is absent), `check_update(flag, orgID)` returns
`serverFlag > flag`, and `orgID` does not affect the result; for
`updateFlag = 5`, flags 4/5/6 give true/false/false. -/
theorem checkUpdate_flag_comparison (fs : String → FileState)
    (fields : List (String × JValue)) (n flag orgID : Int)
    (hfs : fs "db.json" = .content (.obj fields))
    (hflag : jlookup fields "updateFlag" = some (.num n) ∨
      (jlookup fields "updateFlag" = none ∧ n = 0)) :
    check_update fs flag orgID = .ok (decide (n > flag)) ∧
    (∀ orgID2 : Int, check_update fs flag orgID2 = check_update fs flag orgID) ∧
    (check_update dbFS5 4 0 = .ok true ∧ check_update dbFS5 5 0 = .ok false ∧
      check_update dbFS5 6 0 = .ok false) := by
  refine ⟨?_, fun o2 => rfl, rfl, rfl, rfl⟩
  unfold check_update _read_json
  dsimp only
  rw [hfs]
  rcases hflag with h | ⟨h, hn⟩
  · simp [pyDictGet, h, pyInt]
  · subst hn
    simp [pyDictGet, h, pyInt]

/-- Witness for C2 at a concrete filesystem, flag and orgID. -/
theorem checkUpdate_flag_comparison_witness :
    check_update dbFS5 4 7 = .ok true := by
  have h := (checkUpdate_flag_comparison dbFS5 [("updateFlag", .num 5)] 5 4 7
    rfl (Or.inl rfl)).1
  simpa using h

/-- Claim C3: `GET /update` in
`morning.py` never reads any file: the handler passes the plain string
`"data.json"` to `_read_json`, whose first step `path.exists()` raises
`AttributeError` on a `str`, so every request — whatever the state of
the data source — ends in an uncaught exception surfaced as a 500,
never in the file's contents. -/
theorem getDbJson_always_raises_attributeError :
    ∀ (fs : String → FileState) (orgID : Int),
      get_db_json fs orgID
        = .error (.attrErr "str object has no attribute exists") ∧
      statusOf (.attrErr "str object has no attribute exists") = 500 :=
  fun fs orgID => ⟨rfl, rfl⟩

/-- Claim C1: `get_schedule` processes the first entry in collection
order whose carNo matches and whose date equals today or is absent;
when that filter is empty it processes the first entry matching carNo
alone; concretely, with one "A" entry dated in the past and one dated
today, it returns the today-dated entry. -/
theorem getSchedule_selects_first_today_match (fs : String → FileState)
    (fields : List (String × JValue)) (l : List JValue) (car today : String)
    (hfs : fs "schedules.json" = .content (.obj fields))
    (hsch : jlookup fields "schedules" = some (.arr l))
    (hobj : l.all isObj = true) :
    (∀ e, l.find? (todayPred car today) = some e →
       get_schedule fs car today = finishEntry e) ∧
    (l.find? (todayPred car today) = none →
      ∀ e, l.find? (carPred car) = some e →
        get_schedule fs car today = finishEntry e) ∧
    get_schedule (schedFS [entryPast, entryToday]) "A" dayEx
      = .ok ⟨"A", some dayEx, [⟨"08:30", 2⟩]⟩ := by
  refine ⟨?_, ?_, rfl⟩
  · intro e he
    obtain ⟨r, hr⟩ := selectCandidates_of_find_today l car today e he
    rw [get_schedule_content fs car today fields l hfs hsch, if_pos hobj, hr]
  · intro h0 e he
    obtain ⟨r, hr⟩ := selectCandidates_of_find_car l car today e h0 he
    rw [get_schedule_content fs car today fields l hfs hsch, if_pos hobj, hr]

/-- Witness for C1: on the past/today pair the selected entry is the
today-dated one. -/
theorem getSchedule_selects_first_today_match_witness :
    get_schedule (schedFS [entryPast, entryToday]) "A" dayEx
      = finishEntry entryToday :=
  (getSchedule_selects_first_today_match (schedFS [entryPast, entryToday])
    [("schedules", .arr [entryPast, entryToday])] [entryPast, entryToday]
    "A" dayEx rfl rfl rfl).1 entryToday rfl

/-- An error that is not an `HTTPException`, i.e. an uncaught Python
exception. -/
def isUncaught : HErr → Bool
  | .http _ _ => false
  | _ => true

/-- An uncaught exception is not the 404 outcome. -/
theorem uncaught_not404 (e : HErr) (h : isUncaught e = true) :
    is404 e = false := by
  cases e <;> simp [is404] <;> simp [isUncaught] at h

/-- Trip validation fails only with uncaught pydantic/`TypeError`
exceptions, never with an `HTTPException`. -/
theorem validateTrip_err (t : JValue) (e : HErr)
    (h : validateTrip t = .error e) : isUncaught e = true := by
  unfold validateTrip at h
  split at h <;> (try split at h) <;> (try split at h) <;>
    simp_all [isUncaught] <;> (subst h; rfl)

/-- Converting a trips list fails only with uncaught exceptions. -/
theorem validateTrips_err : ∀ (ts : List JValue) (e : HErr),
    validateTrips ts = .error e → isUncaught e = true := by
  intro ts
  induction ts with
  | nil => intro e h; simp [validateTrips] at h
  | cons t ts ih =>
    intro e h
    unfold validateTrips at h
    split at h
    · simp only [Except.error.injEq] at h
      subst h
      exact validateTrip_err t _ (by assumption)
    · split at h
      · simp only [Except.error.injEq] at h
        subst h
        exact ih _ (by assumption)
      · exact absurd h (by simp)

/-- Building the response fails only with uncaught pydantic
exceptions. -/
theorem mkScheduleResponse_err (cv : JValue) (dv : Option JValue)
    (trips : List Trip) (e : HErr)
    (h : mkScheduleResponse cv dv trips = .error e) : isUncaught e = true := by
  unfold mkScheduleResponse at h
  split at h <;> (try split at h) <;> simp_all [isUncaught] <;>
    (subst h; rfl)

/-- Whatever the selected entry looks like, processing it never
produces the 404 "not found" error. -/
theorem finishEntry_err (s : JValue) (e : HErr)
    (h : finishEntry s = .error e) : is404 e = false := by
  unfold finishEntry at h
  split at h
  · split at h
    · simp only [Except.error.injEq] at h
      subst h
      exact uncaught_not404 _ (validateTrips_err _ _ (by assumption))
    · split at h
      · exact uncaught_not404 _ (mkScheduleResponse_err _ _ _ _ h)
      · simp only [Except.error.injEq] at h
        subst h
        simp [is404]
  · simp only [Except.error.injEq] at h
    subst h
    simp [is404]

/-- Selection is empty exactly when no entry matches the carNo. -/
theorem selectCandidates_nil_iff (l : List JValue) (car today : String) :
    selectCandidates l car today = [] ↔ ∀ e ∈ l, carPred car e = false := by
  constructor
  · intro h
    unfold selectCandidates at h
    by_cases hc : (l.filter (todayPred car today)).isEmpty
    · rw [if_pos hc] at h
      intro e he
      have := List.filter_eq_nil_iff.mp h e he
      simpa using this
    · rw [if_neg hc] at h
      rw [h] at hc
      simp at hc
  · exact selectCandidates_of_no_car l car today

/-- Claim C8: `get_schedule` fails with the 404 NotFound exactly when
no entry in the collection carries the requested carNo (the
date-ignoring fallback included); any carNo match, whatever its date,
rules the 404 out. -/
theorem getSchedule_notFound_iff_no_carNo_match (fs : String → FileState)
    (fields : List (String × JValue)) (l : List JValue) (car today : String)
    (hfs : fs "schedules.json" = .content (.obj fields))
    (hsch : jlookup fields "schedules" = some (.arr l))
    (hobj : l.all isObj = true) :
    (∃ d, get_schedule fs car today = .error (.http 404 d)) ↔
      ∀ e ∈ l, carPred car e = false := by
  rw [get_schedule_content fs car today fields l hfs hsch, if_pos hobj]
  constructor
  · rintro ⟨d, hd⟩
    match hsel : selectCandidates l car today with
    | [] => exact (selectCandidates_nil_iff l car today).mp hsel
    | s :: r =>
      rw [hsel] at hd
      have h4 := finishEntry_err s _ hd
      simp [is404] at h4
  · intro h
    rw [(selectCandidates_nil_iff l car today).mpr h]
    exact ⟨_, rfl⟩

/-- Witness for C8: with only the past-dated "A" entry on file, a
lookup for "ZZZ" fails with NotFound. -/
theorem getSchedule_notFound_iff_no_carNo_match_witness :
    ∃ d, get_schedule (schedFS [entryPast]) "ZZZ" dayEx
      = .error (.http 404 d) :=
  (getSchedule_notFound_iff_no_carNo_match (schedFS [entryPast])
    [("schedules", .arr [entryPast])] [entryPast] "ZZZ" dayEx
    rfl rfl rfl).mpr (by decide)

/-- A carNo match means the entry's `carNo` field is exactly the
requested string. -/
theorem carPred_entryGet (car : String) (s : JValue)
    (h : carPred car s = true) : entryGet s "carNo" = some (.str car) := by
  unfold carPred at h
  cases hv : entryGet s "carNo" with
  | none => rw [hv] at h; exact Bool.noConfusion h
  | some v =>
    rw [hv] at h
    cases v <;> simp [isStr] at h
    subst h
    rfl

/-- If the response is built from the string `c`, its `carNo` is `c`. -/
theorem mkScheduleResponse_ok_carNo (c : String) (dv : Option JValue)
    (trips : List Trip) (resp : ScheduleResponse)
    (h : mkScheduleResponse (.str c) dv trips = .ok resp) :
    resp.carNo = c := by
  unfold mkScheduleResponse at h
  split at h <;> (try split at h) <;> simp_all <;> (subst h; rfl)

/-- Processing an entry whose `carNo` field is the string `c` yields a
response whose `carNo` is `c`. -/
theorem finishEntry_ok_carNo (s : JValue) (c : String)
    (resp : ScheduleResponse)
    (hc : entryGet s "carNo" = some (.str c))
    (h : finishEntry s = .ok resp) : resp.carNo = c := by
  unfold finishEntry at h
  split at h
  · split at h
    · exact absurd h (by simp)
    · rw [hc] at h
      exact mkScheduleResponse_ok_carNo c _ _ resp h
  · exact absurd h (by simp)

/-- Claim C9: whenever `get_schedule(car_no)` succeeds, the `carNo`
field of the returned schedule equals the requested `car_no`. -/
theorem getSchedule_ok_carNo_eq (fs : String → FileState)
    (car today : String) (resp : ScheduleResponse)
    (h : get_schedule fs car today = .ok resp) : resp.carNo = car := by
  unfold get_schedule at h
  rcases hr : _read_json fs (.pathArg "schedules.json") with e | j
  · rw [hr] at h
    simp at h
  · rw [hr] at h
    dsimp only at h
    rcases hp : pyDictGet j "schedules" (.arr []) with e | sv
    · rw [hp] at h
      simp at h
    · rw [hp] at h
      cases sv
      case arr schedules =>
        dsimp only at h
        by_cases hall : schedules.all isObj = true
        · rw [if_pos hall] at h
          rcases hsel : selectCandidates schedules car today with _ | ⟨s, r⟩
          · rw [hsel] at h
            simp at h
          · rw [hsel] at h
            dsimp only at h
            have hmem : s ∈ selectCandidates schedules car today := by
              rw [hsel]
              exact List.mem_cons_self s r
            have hcar := selectCandidates_mem_carPred schedules car today s hmem
            exact finishEntry_ok_carNo s car resp (carPred_entryGet car s hcar) h
        · rw [if_neg hall] at h
          simp at h
      all_goals simp at h

/-- Witness for C9: the concrete lookup for "A" returns a response
whose `carNo` is "A". -/
theorem getSchedule_ok_carNo_eq_witness :
    (⟨"A", some dayEx, [⟨"08:30", 2⟩]⟩ : ScheduleResponse).carNo = "A" :=
  getSchedule_ok_carNo_eq (schedFS [entryPast, entryToday]) "A" dayEx
    ⟨"A", some dayEx, [⟨"08:30", 2⟩]⟩ rfl

/-- An entry that fails the carNo filter also fails the
carNo-and-date filter. -/
theorem carPred_false_today (car today : String) (s : JValue)
    (h : carPred car s = false) : todayPred car today s = false := by
  cases htp : todayPred car today s with
  | false => rfl
  | true =>
    rw [todayPred_imp_carPred car today s htp] at h
    exact Bool.noConfusion h

/-- Inserting an element the predicate rejects does not change a
filter. -/
theorem filter_insert_skip {α : Type} (p : α → Bool) (l₁ l₂ : List α)
    (junk : α) (h : p junk = false) :
    (l₁ ++ junk :: l₂).filter p = (l₁ ++ l₂).filter p := by
  simp [List.filter_append, List.filter_cons, h]

/-- Inserting an entry whose carNo does not match leaves the
candidate selection unchanged. -/
theorem selectCandidates_insert_skip (l₁ l₂ : List JValue) (junk : JValue)
    (car today : String) (h : carPred car junk = false) :
    selectCandidates (l₁ ++ junk :: l₂) car today
      = selectCandidates (l₁ ++ l₂) car today := by
  unfold selectCandidates
  rw [filter_insert_skip _ _ _ _ (carPred_false_today car today junk h),
      filter_insert_skip _ _ _ _ h]

/-- `get_schedule` over a well-formed `schedules.json` built from a
given entry list. -/
theorem get_schedule_schedFS (l : List JValue) (car today : String) :
    get_schedule (schedFS l) car today =
      if l.all isObj then
        match selectCandidates l car today with
        | [] => .error (.http 404 ("No schedule for carNo=" ++ car))
        | s :: _ => finishEntry s
      else .error (.attrErr "object has no attribute get") :=
  get_schedule_content (schedFS l) car today [("schedules", .arr l)] l rfl rfl

/-- A non-empty filter yields a first hit. -/
theorem exists_find?_of_filter_ne {α : Type} (p : α → Bool) (l : List α)
    (h : (l.filter p).isEmpty = false) : ∃ e, l.find? p = some e := by
  rw [← head?_filterP]
  cases hc : l.filter p with
  | nil => rw [hc] at h; simp at h
  | cons a t => exact ⟨a, rfl⟩

/-- Claim C10: only the selected (first-matching) entry is validated.
First conjunct: a dict entry whose carNo does not match, inserted
anywhere, never changes the outcome — malformed or not.  Second and
third conjuncts: a dict entry appended after an existing first
candidate (of the primary filter, or of the fallback filter when the
appended entry is not itself a primary match) never changes the
outcome. -/
theorem getSchedule_ignores_unselected_entries :
    (∀ (l₁ l₂ : List JValue) (junk : JValue) (car today : String),
        isObj junk = true → carPred car junk = false →
        get_schedule (schedFS (l₁ ++ junk :: l₂)) car today
          = get_schedule (schedFS (l₁ ++ l₂)) car today) ∧
    (∀ (l : List JValue) (junk : JValue) (car today : String),
        isObj junk = true →
        (l.filter (todayPred car today)).isEmpty = false →
        get_schedule (schedFS (l ++ [junk])) car today
          = get_schedule (schedFS l) car today) ∧
    (∀ (l : List JValue) (junk : JValue) (car today : String),
        isObj junk = true → todayPred car today junk = false →
        (l.filter (carPred car)).isEmpty = false →
        get_schedule (schedFS (l ++ [junk])) car today
          = get_schedule (schedFS l) car today) := by
  refine ⟨?_, ?_, ?_⟩
  · intro l₁ l₂ junk car today hobj hcar
    rw [get_schedule_schedFS, get_schedule_schedFS]
    have hall : (l₁ ++ junk :: l₂).all isObj = (l₁ ++ l₂).all isObj := by
      simp [List.all_append, hobj]
    rw [hall, selectCandidates_insert_skip l₁ l₂ junk car today hcar]
  · intro l junk car today hobj hne
    rw [get_schedule_schedFS, get_schedule_schedFS]
    by_cases hall : l.all isObj = true
    · have hall2 : (l ++ [junk]).all isObj = true := by
        simp [List.all_append, hall, hobj]
      rw [if_pos hall, if_pos hall2]
      obtain ⟨e, he⟩ := exists_find?_of_filter_ne (todayPred car today) l hne
      have he2 : (l ++ [junk]).find? (todayPred car today) = some e := by
        rw [List.find?_append, he]; rfl
      obtain ⟨r1, hr1⟩ := selectCandidates_of_find_today l car today e he
      obtain ⟨r2, hr2⟩ := selectCandidates_of_find_today (l ++ [junk]) car today e he2
      rw [hr1, hr2]
    · have h1 : l.all isObj = false := by simpa using hall
      have hall2 : ¬((l ++ [junk]).all isObj = true) := by
        simp [List.all_append, h1]
      rw [if_neg hall, if_neg hall2]
  · intro l junk car today hobj hjt hne
    rw [get_schedule_schedFS, get_schedule_schedFS]
    by_cases hall : l.all isObj = true
    · have hall2 : (l ++ [junk]).all isObj = true := by
        simp [List.all_append, hall, hobj]
      rw [if_pos hall, if_pos hall2]
      cases hft : l.find? (todayPred car today) with
      | some e =>
        have he2 : (l ++ [junk]).find? (todayPred car today) = some e := by
          rw [List.find?_append, hft]; rfl
        obtain ⟨r1, hr1⟩ := selectCandidates_of_find_today l car today e hft
        obtain ⟨r2, hr2⟩ := selectCandidates_of_find_today (l ++ [junk]) car today e he2
        rw [hr1, hr2]
      | none =>
        have hft2 : (l ++ [junk]).find? (todayPred car today) = none := by
          rw [List.find?_append, hft]
          simp [List.find?, hjt]
        obtain ⟨e, he⟩ := exists_find?_of_filter_ne (carPred car) l hne
        have he2 : (l ++ [junk]).find? (carPred car) = some e := by
          rw [List.find?_append, he]; rfl
        obtain ⟨r1, hr1⟩ := selectCandidates_of_find_car l car today e hft he
        obtain ⟨r2, hr2⟩ := selectCandidates_of_find_car (l ++ [junk]) car today e hft2 he2
        rw [hr1, hr2]
    · have h1 : l.all isObj = false := by simpa using hall
      have hall2 : ¬((l ++ [junk]).all isObj = true) := by
        simp [List.all_append, h1]
      rw [if_neg hall, if_neg hall2]

/-- Witness for C10: appending a carNo-"B" entry with no `trips` array
does not change the result of the lookup for "A". -/
theorem getSchedule_ignores_unselected_entries_witness :
    get_schedule (schedFS [entryToday, entryOtherCar]) "A" dayEx
      = get_schedule (schedFS [entryToday]) "A" dayEx :=
  getSchedule_ignores_unselected_entries.1 [entryToday] [] entryOtherCar
    "A" dayEx rfl rfl

/-- A trip object pydantic rejects: `depTime` absent or not a string,
or `routeId` absent, or `routeId` neither an int nor an
integer-formatted string (pydantic's lax mode coerces the latter). -/
def tripInvalid (t : JValue) : Bool :=
  match t with
  | .obj fields =>
    (match jlookup fields "depTime" with
     | some (.str _) => false
     | _ => true) ||
    (match jlookup fields "routeId" with
     | some (.num _) => false
     | some (.str s) => (s.toInt?).isNone
     | _ => true)
  | _ => false

/-- On a trip that is a dict, a validation failure is always a
pydantic `ValidationError`. -/
theorem validateTrip_obj_err (fields : List (String × JValue)) (e : HErr)
    (h : validateTrip (.obj fields) = .error e) : ∃ m, e = .pydanticErr m := by
  unfold validateTrip at h
  dsimp only at h
  split at h
  · exact absurd h (by simp)
  · split at h
    · exact absurd h (by simp)
    · exact ⟨_, (Except.error.inj h).symm⟩
  · exact ⟨_, (Except.error.inj h).symm⟩
  · exact ⟨_, (Except.error.inj h).symm⟩
  · exact ⟨_, (Except.error.inj h).symm⟩

/-- A trip that validates is not invalid. -/
theorem validateTrip_ok_not_invalid (fields : List (String × JValue))
    (tr : Trip) (h : validateTrip (.obj fields) = .ok tr) :
    tripInvalid (.obj fields) = false := by
  unfold validateTrip at h
  unfold tripInvalid
  split at h <;> (try split at h) <;> (try split at h) <;> simp_all

/-- A trips list of dicts containing an invalid element fails with a
pydantic `ValidationError`. -/
theorem validateTrips_invalid : ∀ (ts : List JValue),
    ts.all isObj = true → (∃ t ∈ ts, tripInvalid t = true) →
    ∃ m, validateTrips ts = .error (.pydanticErr m) := by
  intro ts
  induction ts with
  | nil =>
    rintro _ ⟨t, ht, _⟩
    simp at ht
  | cons t ts ih =>
    intro hobj hbad
    have hsplit : isObj t = true ∧ ∀ x ∈ ts, isObj x = true := by
      simpa [List.all_cons, List.all_eq_true] using hobj
    have h1 : isObj t = true := hsplit.1
    have h2 : ts.all isObj = true := by
      simpa [List.all_eq_true] using hsplit.2
    cases t
    case obj fields =>
      rcases hv : validateTrip (.obj fields) with e | tr
      · obtain ⟨m, hm⟩ := validateTrip_obj_err fields e hv
        subst hm
        exact ⟨m, by simp [validateTrips, hv]⟩
      · have hgood := validateTrip_ok_not_invalid fields tr hv
        rcases hbad with ⟨t', ht', hbad'⟩
        rcases List.mem_cons.mp ht' with rfl | hmem
        · rw [hgood] at hbad'
          exact absurd hbad' (by simp)
        · obtain ⟨m, hm⟩ := ih h2 ⟨t', hmem, hbad'⟩
          exact ⟨m, by simp [validateTrips, hv, hm]⟩
    all_goals simp [isObj] at h1

/-- Counterexample to C4 as stated: a trip element lacking `routeId`
makes `get_schedule` fail with an uncaught pydantic `ValidationError`,
surfaced as a 500 server-error response — not as a client-error
response. -/
theorem getSchedule_badTrip_counterexample :
    get_schedule (schedFS [entryBadTrip]) "A" dayEx
      = .error (.pydanticErr "routeId: field required") ∧
    isClientError (.pydanticErr "routeId: field required") = false ∧
    statusOf (.pydanticErr "routeId: field required") = 500 :=
  ⟨rfl, rfl, rfl⟩

/-- Claim C4 (amended): when the selected entry's trips array contains
a trip dict that lacks `depTime` or `routeId` or carries a wrong-typed
value for one of them (beyond pydantic's int-from-string coercion),
`get_schedule` fails with a pydantic `ValidationError` that the
handler does not catch, so the caller receives a 500 server-error
response, not a client-error response. -/
theorem getSchedule_badTrip_server_error (fs : String → FileState)
    (fields : List (String × JValue)) (l : List JValue)
    (car today : String) (e : JValue) (ts : List JValue)
    (hfs : fs "schedules.json" = .content (.obj fields))
    (hsch : jlookup fields "schedules" = some (.arr l))
    (hobj : l.all isObj = true)
    (hsel : l.find? (todayPred car today) = some e ∨
      (l.find? (todayPred car today) = none ∧ l.find? (carPred car) = some e))
    (htrips : entryGet e "trips" = some (.arr ts))
    (hts : ts.all isObj = true)
    (hbad : ∃ t ∈ ts, tripInvalid t = true) :
    ∃ m, get_schedule fs car today = .error (.pydanticErr m) ∧
      statusOf (.pydanticErr m) = 500 ∧
      isClientError (.pydanticErr m) = false := by
  have hge : get_schedule fs car today = finishEntry e := by
    rcases hsel with h | ⟨h0, h⟩
    · obtain ⟨r, hr⟩ := selectCandidates_of_find_today l car today e h
      rw [get_schedule_content fs car today fields l hfs hsch, if_pos hobj, hr]
    · obtain ⟨r, hr⟩ := selectCandidates_of_find_car l car today e h0 h
      rw [get_schedule_content fs car today fields l hfs hsch, if_pos hobj, hr]
  obtain ⟨m, hm⟩ := validateTrips_invalid ts hts hbad
  refine ⟨m, ?_, rfl, rfl⟩
  rw [hge]
  simp [finishEntry, htrips, hm]

/-- Witness for the amended C4 at the concrete bad-trip entry. -/
theorem getSchedule_badTrip_server_error_witness :
    ∃ m, get_schedule (schedFS [entryBadTrip]) "A" dayEx
        = .error (.pydanticErr m) ∧
      statusOf (.pydanticErr m) = 500 ∧
      isClientError (.pydanticErr m) = false :=
  getSchedule_badTrip_server_error (schedFS [entryBadTrip])
    [("schedules", .arr [entryBadTrip])] [entryBadTrip] "A" dayEx
    entryBadTrip [.obj [("depTime", .str "07:30")]]
    rfl rfl rfl (Or.inl rfl) rfl rfl
    ⟨.obj [("depTime", .str "07:30")], List.mem_cons_self _ _, rfl⟩

/-- Claim C5: ingesting A then B leaves exactly B's record in the
slot — payload equal to B's parsed form, never a merge — and before
any ingest `get_data` returns the explicit empty result. -/
theorem ingest_replace_semantics (A B : JValue) (ra rb : BusReport)
    (nA iA nB iB : String) (st0 : Option StoredData)
    (hA : parseBusReport A = .ok ra) (hB : parseBusReport B = .ok rb) :
    get_data ((ingest B nB iB ((ingest A nA iA st0).1)).1)
      = some ⟨nB, iB, rb⟩ ∧
    (get_data ((ingest B nB iB ((ingest A nA iA st0).1)).1)).map StoredData.payload
      = some rb ∧
    get_data (none : Option StoredData) = none := by
  refine ⟨?_, ?_, rfl⟩ <;> simp [ingest, get_data, hA, hB]

/-- Witness for C5 with two concrete reports. -/
theorem ingest_replace_semantics_witness :
    get_data ((ingest (.obj [("vehicle_no", .str "Y"), ("route", .str "S"),
        ("stop_location", .str "M")]) "t2" "ip2"
      ((ingest (.obj [("vehicleNo", .str "X"), ("route", .str "R"),
        ("stopLocation", .str "L")]) "t1" "ip1" none).1)).1)
      = some ⟨"t2", "ip2", ⟨"Y", "S", "M"⟩⟩ :=
  (ingest_replace_semantics
    (.obj [("vehicleNo", .str "X"), ("route", .str "R"), ("stopLocation", .str "L")])
    (.obj [("vehicle_no", .str "Y"), ("route", .str "S"), ("stop_location", .str "M")])
    ⟨"X", "R", "L"⟩ ⟨"Y", "S", "M"⟩ "t1" "ip1" "t2" "ip2" none rfl rfl).1

/-- Claim C6: a camel-case report and the corresponding snake-case
report are accepted identically: same stored slot, same returned
record, hence identical payload content. -/
theorem ingest_alias_equivalence (v r l now ip : String)
    (st : Option StoredData) :
    ingest (.obj [("vehicleNo", .str v), ("route", .str r),
        ("stopLocation", .str l)]) now ip st
      = (some ⟨now, ip, ⟨v, r, l⟩⟩, .ok ⟨now, ip, ⟨v, r, l⟩⟩) ∧
    ingest (.obj [("vehicle_no", .str v), ("route", .str r),
        ("stop_location", .str l)]) now ip st
      = (some ⟨now, ip, ⟨v, r, l⟩⟩, .ok ⟨now, ip, ⟨v, r, l⟩⟩) :=
  ⟨rfl, rfl⟩

/-- A field that validated was present (under either spelling) with a
string value. -/
def strOk : Option JValue → Bool
  | some (.str _) => true
  | _ => false

/-- `parseStrField` succeeds exactly on present string values. -/
theorem parseStrField_ok_strOk (v : Option JValue) (n s : String)
    (h : parseStrField v n = .ok s) : strOk v = true := by
  unfold parseStrField at h
  split at h <;> simp_all [strOk]

/-- Claim C7: when a required field is absent under both spellings or
carries a non-string value, ingest rejects the report with a
ValidationError (422) and leaves the slot unchanged. -/
theorem ingest_missing_or_nonstring_rejected
    (fields : List (String × JValue)) (now ip : String)
    (st : Option StoredData)
    (h : strOk (getAliased fields "vehicleNo" "vehicle_no") = false ∨
         strOk (jlookup fields "route") = false ∨
         strOk (getAliased fields "stopLocation" "stop_location") = false) :
    ∃ msgs, ingest (.obj fields) now ip st
      = (st, .error (.requestValidation msgs)) := by
  unfold ingest parseBusReport
  dsimp only
  rcases h1 : parseStrField (getAliased fields "vehicleNo" "vehicle_no") "vehicle_no"
      with e1 | s1 <;>
    rcases h2 : parseStrField (jlookup fields "route") "route" with e2 | s2 <;>
      rcases h3 : parseStrField (getAliased fields "stopLocation" "stop_location")
          "stop_location" with e3 | s3 <;>
        first
          | exact ⟨_, rfl⟩
          | (rcases h with hbad | hbad | hbad
             · exact absurd (parseStrField_ok_strOk _ _ _ h1) (by simp [hbad])
             · exact absurd (parseStrField_ok_strOk _ _ _ h2) (by simp [hbad])
             · exact absurd (parseStrField_ok_strOk _ _ _ h3) (by simp [hbad]))

/-- Witness for C7: the report missing the vehicle identifier is
rejected and nothing is stored. -/
theorem ingest_missing_or_nonstring_rejected_witness :
    ∃ msgs, ingest (.obj [("route", .str "R"), ("stopLocation", .str "L")])
        "t" "ip" none
      = (none, .error (.requestValidation msgs)) :=
  ingest_missing_or_nonstring_rejected
    [("route", .str "R"), ("stopLocation", .str "L")] "t" "ip" none
    (Or.inl rfl)

end Shuttle
